import Mathlib

/-
Verification of the core of `custom_components/ha-mitt-sev/sensor.py`:
the token-authenticated REST client (`SEVData.async_get_token`,
`SEVData.async_post`) and the reading-aggregation fold
(`SEVData.async_update`).

Modelling conventions:
- Numeric reading values (JSON numbers, Python floats) are modelled as
  rationals.
- Network interaction is abstracted by an `HttpOutcome` input per HTTP
  request: the request either times out, fails at transport level,
  yields a `None` response object, or yields a response with a status
  code and a body string.
- Python exceptions that escape a function are modelled with
  `Except String`, carrying the exception class name.
- Python dicts are modelled as association lists in insertion order,
  with assignment updating in place or appending at the end, exactly as
  CPython dicts behave.
-/

/-- One element of a per-meter `readings` list as returned by the
reading endpoints: `{time_stamp, reading, cumulative_value?}`.
The `cumulative_value` field is absent on non-energy endpoints. -/
structure Reading where
  time_stamp : String
  reading : ℚ
  cumulative_value : Option ℚ
deriving DecidableEq

/-- One per-meter element of a reading-endpoint response:
`{meter_id, readings}`. -/
structure MeterData where
  meter_id : String
  readings : List Reading
deriving DecidableEq

/-- One cell of the derived metric table: the `{time, value}` dict
written by `async_update`. -/
structure TableEntry where
  time : String
  value : ℚ
deriving DecidableEq

/-- The inner dict of the table: metric key (such as
`kwh`, `kwh_today`) to entry. -/
abbrev MetricRow := List (String × TableEntry)

/-- The derived metric table `data`: meter identifier to metric row.
In the source this is `defaultdict(dict)`. -/
abbrev Table := List (String × MetricRow)

/-- Python dict assignment `d[k] = v` on an insertion-ordered
association list: overwrite in place if the key exists, else append. -/
def dictSet {α : Type} : List (String × α) → String → α → List (String × α)
  | [], k, v => [(k, v)]
  | (k1, v1) :: rest, k, v =>
    if k1 = k then (k, v) :: rest else (k1, v1) :: dictSet rest k v

/-- Python dict lookup `d.get(k)`. -/
def dictGet {α : Type} : List (String × α) → String → Option α
  | [], _ => none
  | (k1, v1) :: rest, k => if k1 = k then some v1 else dictGet rest k

/-- The assignment `data[meter_id][key] = entry` on a
`defaultdict(dict)`: accessing a missing meter row creates an empty
row first. -/
def tableSet (t : Table) (m k : String) (e : TableEntry) : Table :=
  dictSet t m (dictSet ((dictGet t m).getD []) k e)

/-- Lookup `data[meter_id][key]`, absent if either level misses. -/
def tableGet (t : Table) (m k : String) : Option TableEntry :=
  (dictGet t m).bind (fun row => dictGet row k)

/-- The aggregation `value_sum = sum(r["reading"] for r in meter["readings"])`
from `async_update` (sensor.py line 484). -/
def valueSum (rs : List Reading) : ℚ :=
  (rs.map (fun r => r.reading)).sum

/-- The body of the per-meter fold in `async_update`
(sensor.py lines 481-497): `last = meter["readings"][-1]` (raising
`IndexError` on an empty list), write the instantaneous entry, the
`_today` sum entry, and for the `kwh` endpoint the `_total` entry from
`last["cumulative_value"]` (raising `KeyError` when that field is
absent). -/
def processMeter (data_type : String) (t : Table) (m : MeterData) : Except String Table :=
  match m.readings.getLast? with
  | none => Except.error "IndexError"
  | some last =>
    let t1 := tableSet t m.meter_id data_type ⟨last.time_stamp, last.reading⟩
    let t2 := tableSet t1 m.meter_id (data_type ++ "_today") ⟨last.time_stamp, valueSum m.readings⟩
    if data_type = "kwh" then
      match last.cumulative_value with
      | none => Except.error "KeyError"
      | some c => Except.ok (tableSet t2 m.meter_id (data_type ++ "_total") ⟨last.time_stamp, c⟩)
    else
      Except.ok t2

/-- The loop `for meter in data_set:` of `async_update`: meters are
processed left to right and the first exception aborts the fold. -/
def processMeters (data_type : String) : Table → List MeterData → Except String Table
  | t, [] => Except.ok t
  | t, m :: ms =>
    match processMeter data_type t m with
    | Except.error e => Except.error e
    | Except.ok t1 => processMeters data_type t1 ms

/-- The guard `if data_set:` of `async_update`: an absent response
contributes nothing (an empty list is also falsy in Python and equally
contributes nothing). -/
def processDataSet (data_type : String) (resp : Option (List MeterData)) (t : Table) : Except String Table :=
  match resp with
  | none => Except.ok t
  | some ms => processMeters data_type t ms

/-- The full fold of `async_update` over `response.keys()` in dict
insertion order `kwh`, `co2`, `cost`, starting from the fresh
`defaultdict(dict)`; an exception anywhere aborts the whole fold. -/
def foldResponses (kwh co2 cost : Option (List MeterData)) : Except String Table :=
  match processDataSet "kwh" kwh [] with
  | Except.error e => Except.error e
  | Except.ok t1 =>
    match processDataSet "co2" co2 t1 with
    | Except.error e => Except.error e
    | Except.ok t2 => processDataSet "cost" cost t2

/-- Outcome of one HTTP round trip as observed by the code:
`session.post` raises `asyncio.TimeoutError`, raises an
`aiohttp.ClientError`, returns `None`, or returns a response object
with a status code and a body string. -/
inductive HttpOutcome where
  | timeout
  | transportError
  | noneResponse
  | response (status : Nat) (body : String)
deriving DecidableEq

/-- The mutable state of one `SEVData` instance: credentials, the
cached bearer token (`None` initially), the derived metric table
(`None` initially), and the throttle timestamp of the last completed
`async_update` (in minutes, held by the `Throttle` wrapper). -/
structure SEVData where
  user_id : String
  api_key : String
  token : Option String
  data : Option Table
  last_update : Option Int
deriving DecidableEq

/-- Python truthiness of `self.token`: `None` and the empty string are
falsy. -/
def tokenTruthy : Option String → Bool
  | none => false
  | some s => s != ""

/-- The model of `SEVData.async_get_token` (sensor.py lines 362-393).
On timeout or transport error the exception is caught and logged, but
the following `if sev_data` then reads the local `sev_data` that was
never assigned, so an `UnboundLocalError` escapes. On a `None`
response the raised `ValueError` is caught and the falsy check returns
`None` leaving the token untouched. On a response with status below
300 the body is decoded and stored as the token; on any other status
the token is left untouched. -/
def async_get_token (st : SEVData) (o : HttpOutcome) : Except String SEVData :=
  match o with
  | HttpOutcome.timeout => Except.error "UnboundLocalError"
  | HttpOutcome.transportError => Except.error "UnboundLocalError"
  | HttpOutcome.noneResponse => Except.ok st
  | HttpOutcome.response status body =>
    if status < 300 then Except.ok { st with token := some body }
    else Except.ok st

/-- Result of a completed `async_post`: the state after the call, the
returned value (`some body` for the decoded successful body, `none`
for the `return None` paths), whether `async_get_token` was invoked,
and whether the authenticated POST request itself was issued. -/
structure PostResult where
  state : SEVData
  result : Option String
  loginAttempted : Bool
  postIssued : Bool
deriving DecidableEq

/-- The part of `SEVData.async_post` from the second
`if not self.token` on (sensor.py lines 398-432): return `None`
without issuing the request when the token is still falsy, otherwise
issue the POST; timeout and transport error again leave the local
`sev_data` unassigned so `UnboundLocalError` escapes; a `None`
response or a status of 300 or above yields `None`; a status below
300 yields the decoded body. -/
def postRequest (st : SEVData) (la : Bool) (o : HttpOutcome) : Except String PostResult :=
  if tokenTruthy st.token = false then Except.ok ⟨st, none, la, false⟩
  else
    match o with
    | HttpOutcome.timeout => Except.error "UnboundLocalError"
    | HttpOutcome.transportError => Except.error "UnboundLocalError"
    | HttpOutcome.noneResponse => Except.ok ⟨st, none, la, true⟩
    | HttpOutcome.response status body =>
      if status < 300 then Except.ok ⟨st, some body, la, true⟩
      else Except.ok ⟨st, none, la, true⟩

/-- The model of `SEVData.async_post` (sensor.py lines 395-432):
`login` is the HTTP outcome of the token request should one be made,
`po` the outcome of the authenticated POST should it be issued. When
the cached token is falsy, `async_get_token` runs first and its
escaping exceptions propagate. -/
def async_post (st : SEVData) (login po : HttpOutcome) : Except String PostResult :=
  if tokenTruthy st.token then postRequest st false po
  else
    match async_get_token st login with
    | Except.error e => Except.error e
    | Except.ok st1 => postRequest st1 true po

/-- The throttle interval `MIN_TIME_BETWEEN_UPDATES = timedelta(minutes=30)`
(sensor.py line 48), in minutes. -/
def MIN_TIME_BETWEEN_UPDATES : Int := 30

/-- Observable outcome of one `async_update` invocation: the state of
the instance afterwards, how many `async_post` network calls were
issued, and the exception that escaped, if any. -/
structure UpdateOutcome where
  state : SEVData
  networkCalls : Nat
  error : Option String
deriving DecidableEq

/-- The body of `SEVData.async_update` (sensor.py lines 442-500) once
the throttle admits the call: the three endpoint responses `kwh`,
`co2`, `cost` are the values returned by the three `async_post`
invocations (counted as the three network calls); the fold then
rebuilds the table from scratch and `self.data = data` replaces the
stored table — but only when no exception escaped the fold, since the
assignment is the last statement. -/
def runUpdate (st : SEVData) (now : Int) (kwh co2 cost : Option (List MeterData)) : UpdateOutcome :=
  match foldResponses kwh co2 cost with
  | Except.ok t => ⟨{ st with data := some t, last_update := some now }, 3, none⟩
  | Except.error e => ⟨st, 3, some e⟩

/-- Modelled from the spec: the `Throttle(MIN_TIME_BETWEEN_UPDATES)`
decorator wrapping `async_update` comes from `homeassistant.util`,
which is not part of this repository. Per the spec, a call within the
minimum interval since the last completed update returns immediately
without hitting the network, reusing whatever table already exists;
otherwise the wrapped body runs and the call time is recorded.
`now` is the current time in minutes. -/
def async_update (st : SEVData) (now : Int) (kwh co2 cost : Option (List MeterData)) : UpdateOutcome :=
  match st.last_update with
  | none => runUpdate st now kwh co2 cost
  | some t0 =>
    if now - t0 < MIN_TIME_BETWEEN_UPDATES then ⟨st, 0, none⟩
    else runUpdate st now kwh co2 cost

/-- A local wall-clock instant as produced by `datetime.today()`. -/
structure PyDateTime where
  year : Nat
  month : Nat
  day : Nat
  hour : Nat
  minute : Nat
  second : Nat
deriving DecidableEq

/-- Two decimal digits, zero padded, as `strftime` renders `%m`, `%d`,
`%H`, `%M`, `%S`. -/
def pad2 (n : Nat) : List Char :=
  [Nat.digitChar (n / 10 % 10), Nat.digitChar (n % 10)]

/-- Four decimal digits, zero padded, as `strftime` renders `%Y` for
the years `datetime` supports (below 10000). -/
def pad4 (n : Nat) : List Char :=
  [Nat.digitChar (n / 1000 % 10), Nat.digitChar (n / 100 % 10),
   Nat.digitChar (n / 10 % 10), Nat.digitChar (n % 10)]

/-- The format `strftime('%Y-%m-%dT%H:%M:%S')` used for `date_to`
(sensor.py line 445). -/
def formatDateTime (d : PyDateTime) : String :=
  String.mk (pad4 d.year ++ ('-' :: pad2 d.month) ++ ('-' :: pad2 d.day) ++
    ('T' :: pad2 d.hour) ++ (':' :: pad2 d.minute) ++ (':' :: pad2 d.second))

/-- The instant at 00:00:00 of the same calendar day. -/
def startOfDay (d : PyDateTime) : PyDateTime :=
  { d with hour := 0, minute := 0, second := 0 }

/-- The query window of `async_update` (sensor.py lines 444-445):
`date_from = d1.strftime('%Y-%m-%dT00:00:00')` and
`date_to = d2.strftime('%Y-%m-%dT%H:%M:%S')`, where `d1` and `d2` are
the two successive `datetime.today()` clock reads. -/
def refreshWindow (d1 d2 : PyDateTime) : String × String :=
  (formatDateTime (startOfDay d1), formatDateTime d2)

/-- Encoding of an instant as a single number, order-isomorphic to
chronological order for in-range field values. -/
def dtKey (d : PyDateTime) : Nat :=
  ((((d.year * 100 + d.month) * 100 + d.day) * 100 + d.hour) * 100 + d.minute) * 100 + d.second

/-- Chronological order on instants. -/
abbrev dtLe (a b : PyDateTime) : Prop := dtKey a ≤ dtKey b

/-- Two instants fall in the same local calendar day. -/
abbrev sameDay (a b : PyDateTime) : Prop :=
  a.year = b.year ∧ a.month = b.month ∧ a.day = b.day

/-- All characters are decimal digits. -/
def isDigits (l : List Char) : Bool := l.all Char.isDigit

/-- Checker for the `YYYY-MM-DDTHH:MM:SS` timestamp shape. -/
def isTimestampFormat (s : String) : Bool :=
  match s.toList with
  | [y1, y2, y3, y4, c1, m1, m2, c2, d1, d2, c3, h1, h2, c4, n1, n2, c5, s1, s2] =>
    isDigits [y1, y2, y3, y4, m1, m2, d1, d2, h1, h2, n1, n2, s1, s2] &&
      (c1 == '-') && (c2 == '-') && (c3 == 'T') && (c4 == ':') && (c5 == ':')
  | _ => false

/-- The first ten characters of a formatted timestamp: its calendar
day part `YYYY-MM-DD`. -/
def dayPart (s : String) : List Char := s.toList.take 10

/-- A meter entry acceptable to the fold on the non-energy endpoints:
its readings list is non-empty. -/
def meterOk (m : MeterData) : Bool := !m.readings.isEmpty

/-- A meter entry acceptable to the fold on the energy endpoint: its
readings list is non-empty and the last reading carries a
`cumulative_value`. -/
def meterOkKwh (m : MeterData) : Bool :=
  match m.readings.getLast? with
  | none => false
  | some r => r.cumulative_value.isSome

/-- Helper: concrete sample state with a cached token, used by closed
statements about the client. -/
def stWithToken : SEVData := ⟨"user", "key", some "tok", none, none⟩

/-- Helper: concrete sample state with no token, used by closed
statements about the client. -/
def stNoToken : SEVData := ⟨"user", "key", none, none, none⟩

/-- Helper: a concrete non-empty derived metric table, used by closed
statements about table replacement. -/
def prevTable : Table := [("7", [("kwh", ⟨"2025-01-01T10:00:00", 5⟩)])]

/-- Helper: a concrete energy meter entry with one reading carrying a
cumulative value. -/
def sampleKwhMeter : MeterData :=
  ⟨"7", [⟨"2025-01-01T01:00:00", 2, some 100⟩]⟩

/-- Helper: a concrete cost meter entry with two readings. -/
def sampleCostMeter : MeterData :=
  ⟨"9", [⟨"2025-01-01T01:00:00", 3, none⟩, ⟨"2025-01-01T02:00:00", 4, none⟩]⟩

/-- Helper: the three-reading energy response used in closed
statements about the fold. -/
def threeReadings : List Reading :=
  [⟨"a", 1, none⟩, ⟨"b", 2, none⟩, ⟨"c", 3, some 100⟩]

/-- Helper: the table produced by folding `threeReadings` for meter
`7` on the energy endpoint alone. -/
def threeReadingsTable : Table :=
  [("7", [("kwh", ⟨"c", 3⟩), ("kwh_today", ⟨"c", valueSum threeReadings⟩),
    ("kwh_total", ⟨"c", 100⟩)])]

/-- Helper: string literal reduction for the metric keys. -/
theorem kwh_today_eq : ("kwh" ++ "_today" : String) = "kwh_today" := rfl

/-- Helper: string literal reduction for the metric keys. -/
theorem kwh_total_eq : ("kwh" ++ "_total" : String) = "kwh_total" := rfl

/-- Helper: string literal reduction for the metric keys. -/
theorem co2_today_eq : ("co2" ++ "_today" : String) = "co2_today" := rfl

/-- Helper: string literal reduction for the metric keys. -/
theorem cost_today_eq : ("cost" ++ "_today" : String) = "cost_today" := rfl

/-- Helper: looking up the key just assigned returns the new value. -/
theorem dictGet_dictSet_same {α : Type} (d : List (String × α)) (k : String) (v : α) :
    dictGet (dictSet d k v) k = some v := by
  induction d with
  | nil => simp [dictSet, dictGet]
  | cons p rest ih =>
    obtain ⟨k1, v1⟩ := p
    by_cases h : k1 = k <;> simp [dictSet, dictGet, h, ih]

/-- Helper: assigning one key does not change the lookup of another. -/
theorem dictGet_dictSet_ne {α : Type} (d : List (String × α)) (k k' : String) (v : α)
    (h : k' ≠ k) : dictGet (dictSet d k v) k' = dictGet d k' := by
  have hks : ¬ (k = k') := fun hc => h hc.symm
  induction d with
  | nil => simp [dictSet, dictGet, hks]
  | cons p rest ih =>
    obtain ⟨k1, v1⟩ := p
    by_cases h1 : k1 = k
    · subst h1
      simp [dictSet, dictGet, hks]
    · by_cases h2 : k1 = k' <;> simp [dictSet, dictGet, h1, h2, ih, h]

/-- Helper: looking up the cell just assigned returns the new entry. -/
theorem tableGet_tableSet_same (t : Table) (m k : String) (e : TableEntry) :
    tableGet (tableSet t m k e) m k = some e := by
  unfold tableGet tableSet
  rw [dictGet_dictSet_same]
  simp [dictGet_dictSet_same]

/-- Helper: assigning one cell does not change the lookup of a cell
with a different meter or a different key. -/
theorem tableGet_tableSet_ne (t : Table) (m k m' k' : String) (e : TableEntry)
    (h : m ≠ m' ∨ k ≠ k') : tableGet (tableSet t m' k' e) m k = tableGet t m k := by
  unfold tableGet tableSet
  by_cases hm : m = m'
  · subst hm
    have hk : k ≠ k' := h.resolve_left (fun hc => hc rfl)
    have hk2 : ¬ (k' = k) := fun hc => hk hc.symm
    rw [dictGet_dictSet_same]
    cases hrow : dictGet t m with
    | none => simp [dictSet, dictGet, hk2]
    | some row => simp [dictGet_dictSet_ne _ _ _ _ hk]
  · rw [dictGet_dictSet_ne _ _ _ _ hm]

/-- Helper: a cell present before an assignment is still present after
it. -/
theorem tableGet_isSome_tableSet (t : Table) (m k m' k' : String) (e : TableEntry)
    (h : (tableGet t m k).isSome = true) :
    (tableGet (tableSet t m' k' e) m k).isSome = true := by
  by_cases hm : m = m'
  · by_cases hk : k = k'
    · subst hm; subst hk; rw [tableGet_tableSet_same]; rfl
    · rw [tableGet_tableSet_ne t m k m' k' e (Or.inr hk)]; exact h
  · rw [tableGet_tableSet_ne t m k m' k' e (Or.inl hm)]; exact h

/-- Helper: on the energy endpoint, a meter entry whose last reading
carries a cumulative value folds into three cell assignments. -/
theorem processMeter_eq_kwh (t : Table) (m : MeterData) (last : Reading) (c : ℚ)
    (hlast : m.readings.getLast? = some last) (hcv : last.cumulative_value = some c) :
    processMeter "kwh" t m = Except.ok
      (tableSet (tableSet (tableSet t m.meter_id "kwh" ⟨last.time_stamp, last.reading⟩)
        m.meter_id "kwh_today" ⟨last.time_stamp, valueSum m.readings⟩)
        m.meter_id "kwh_total" ⟨last.time_stamp, c⟩) := by
  simp [processMeter, hlast, hcv, kwh_today_eq, kwh_total_eq]

/-- Helper: on a non-energy endpoint, a meter entry with a non-empty
readings list folds into two cell assignments. -/
theorem processMeter_eq_other (dt : String) (t : Table) (m : MeterData) (last : Reading)
    (hdt : dt ≠ "kwh") (hlast : m.readings.getLast? = some last) :
    processMeter dt t m = Except.ok
      (tableSet (tableSet t m.meter_id dt ⟨last.time_stamp, last.reading⟩)
        m.meter_id (dt ++ "_today") ⟨last.time_stamp, valueSum m.readings⟩) := by
  simp [processMeter, hlast, hdt]

/-- Helper: processing one meter entry leaves untouched every cell
whose key is none of the three keys the endpoint writes. -/
theorem processMeter_preserves (dt : String) (t : Table) (m : MeterData) (t' : Table)
    (hp : processMeter dt t m = Except.ok t') (mid k : String)
    (h1 : k ≠ dt) (h2 : k ≠ dt ++ "_today") (h3 : k ≠ dt ++ "_total") :
    tableGet t' mid k = tableGet t mid k := by
  unfold processMeter at hp
  cases hlast : m.readings.getLast? with
  | none => rw [hlast] at hp; cases hp
  | some last =>
    rw [hlast] at hp
    simp only at hp
    by_cases hdt : dt = "kwh"
    · rw [if_pos hdt] at hp
      cases hcv : last.cumulative_value with
      | none => rw [hcv] at hp; cases hp
      | some c =>
        rw [hcv] at hp
        injection hp with hp
        subst hp
        rw [tableGet_tableSet_ne _ _ _ _ _ _ (Or.inr h3),
          tableGet_tableSet_ne _ _ _ _ _ _ (Or.inr h2),
          tableGet_tableSet_ne _ _ _ _ _ _ (Or.inr h1)]
    · rw [if_neg hdt] at hp
      injection hp with hp
      subst hp
      rw [tableGet_tableSet_ne _ _ _ _ _ _ (Or.inr h2),
        tableGet_tableSet_ne _ _ _ _ _ _ (Or.inr h1)]

/-- Helper: a cell present before processing one meter entry is still
present afterwards. -/
theorem processMeter_mono (dt : String) (t : Table) (m : MeterData) (t' : Table)
    (hp : processMeter dt t m = Except.ok t') (mid k : String)
    (h : (tableGet t mid k).isSome = true) : (tableGet t' mid k).isSome = true := by
  unfold processMeter at hp
  cases hlast : m.readings.getLast? with
  | none => rw [hlast] at hp; cases hp
  | some last =>
    rw [hlast] at hp
    simp only at hp
    by_cases hdt : dt = "kwh"
    · rw [if_pos hdt] at hp
      cases hcv : last.cumulative_value with
      | none => rw [hcv] at hp; cases hp
      | some c =>
        rw [hcv] at hp
        injection hp with hp
        subst hp
        exact tableGet_isSome_tableSet _ _ _ _ _ _
          (tableGet_isSome_tableSet _ _ _ _ _ _ (tableGet_isSome_tableSet _ _ _ _ _ _ h))
    · rw [if_neg hdt] at hp
      injection hp with hp
      subst hp
      exact tableGet_isSome_tableSet _ _ _ _ _ _ (tableGet_isSome_tableSet _ _ _ _ _ _ h)

/-- Helper: a non-empty list has a last element. -/
theorem getLast?_isSome_of_ne_nil {α : Type} (l : List α) (h : l ≠ []) :
    ∃ a, l.getLast? = some a := by
  cases l with
  | nil => exact absurd rfl h
  | cons a as => exact ⟨(a :: as).getLast (by simp), List.getLast?_eq_getLast _ _⟩

/-- Helper: the meter loop leaves untouched every cell whose key is
none of the three keys the endpoint writes. -/
theorem processMeters_preserves (dt : String) (ms : List MeterData) :
    ∀ t t', processMeters dt t ms = Except.ok t' →
    ∀ mid k, k ≠ dt → k ≠ dt ++ "_today" → k ≠ dt ++ "_total" →
    tableGet t' mid k = tableGet t mid k := by
  induction ms with
  | nil =>
    intro t t' hp mid k h1 h2 h3
    unfold processMeters at hp
    injection hp with hp
    subst hp
    rfl
  | cons m ms ih =>
    intro t t' hp mid k h1 h2 h3
    unfold processMeters at hp
    cases hpm : processMeter dt t m with
    | error e => rw [hpm] at hp; cases hp
    | ok t1 =>
      rw [hpm] at hp
      simp only at hp
      rw [ih t1 t' hp mid k h1 h2 h3]
      exact processMeter_preserves dt t m t1 hpm mid k h1 h2 h3

/-- Helper: the data-set guard leaves untouched every cell whose key
is none of the three keys the endpoint writes. -/
theorem processDataSet_preserves (dt : String) (resp : Option (List MeterData)) :
    ∀ t t', processDataSet dt resp t = Except.ok t' →
    ∀ mid k, k ≠ dt → k ≠ dt ++ "_today" → k ≠ dt ++ "_total" →
    tableGet t' mid k = tableGet t mid k := by
  intro t t' hp mid k h1 h2 h3
  cases resp with
  | none =>
    unfold processDataSet at hp
    injection hp with hp
    subst hp
    rfl
  | some ms => exact processMeters_preserves dt ms t t' hp mid k h1 h2 h3

/-- Helper: a cell present before the meter loop is still present
afterwards. -/
theorem processMeters_mono (dt : String) (ms : List MeterData) :
    ∀ t t', processMeters dt t ms = Except.ok t' →
    ∀ mid k, (tableGet t mid k).isSome = true → (tableGet t' mid k).isSome = true := by
  induction ms with
  | nil =>
    intro t t' hp mid k h
    unfold processMeters at hp
    injection hp with hp
    subst hp
    exact h
  | cons m ms ih =>
    intro t t' hp mid k h
    unfold processMeters at hp
    cases hpm : processMeter dt t m with
    | error e => rw [hpm] at hp; cases hp
    | ok t1 =>
      rw [hpm] at hp
      simp only at hp
      exact ih t1 t' hp mid k (processMeter_mono dt t m t1 hpm mid k h)

/-- Helper: a cell present before the data-set guard is still present
afterwards. -/
theorem processDataSet_mono (dt : String) (resp : Option (List MeterData)) :
    ∀ t t', processDataSet dt resp t = Except.ok t' →
    ∀ mid k, (tableGet t mid k).isSome = true → (tableGet t' mid k).isSome = true := by
  intro t t' hp mid k h
  cases resp with
  | none =>
    unfold processDataSet at hp
    injection hp with hp
    subst hp
    exact h
  | some ms => exact processMeters_mono dt ms t t' hp mid k h

/-- Helper: successfully processing one energy meter entry leaves its
three energy cells present. -/
theorem processMeter_kwh_sets (t : Table) (m : MeterData) (t' : Table)
    (hp : processMeter "kwh" t m = Except.ok t') :
    (tableGet t' m.meter_id "kwh").isSome = true ∧
    (tableGet t' m.meter_id "kwh_today").isSome = true ∧
    (tableGet t' m.meter_id "kwh_total").isSome = true := by
  unfold processMeter at hp
  cases hlast : m.readings.getLast? with
  | none => rw [hlast] at hp; cases hp
  | some last =>
    rw [hlast] at hp
    simp only [if_pos rfl] at hp
    cases hcv : last.cumulative_value with
    | none => rw [hcv] at hp; cases hp
    | some c =>
      rw [hcv] at hp
      injection hp with hp
      subst hp
      rw [kwh_today_eq, kwh_total_eq]
      refine ⟨?_, ?_, ?_⟩
      · rw [tableGet_tableSet_ne _ _ _ _ _ _ (Or.inr (by decide)),
          tableGet_tableSet_ne _ _ _ _ _ _ (Or.inr (by decide)),
          tableGet_tableSet_same]
        rfl
      · rw [tableGet_tableSet_ne _ _ _ _ _ _ (Or.inr (by decide)),
          tableGet_tableSet_same]
        rfl
      · rw [tableGet_tableSet_same]; rfl

/-- Helper: successfully processing one cost meter entry leaves its
two cost cells present. -/
theorem processMeter_cost_sets (t : Table) (m : MeterData) (t' : Table)
    (hp : processMeter "cost" t m = Except.ok t') :
    (tableGet t' m.meter_id "cost").isSome = true ∧
    (tableGet t' m.meter_id "cost_today").isSome = true := by
  unfold processMeter at hp
  cases hlast : m.readings.getLast? with
  | none => rw [hlast] at hp; cases hp
  | some last =>
    rw [hlast] at hp
    simp only [if_neg (by decide : ¬("cost" : String) = "kwh")] at hp
    injection hp with hp
    subst hp
    rw [cost_today_eq]
    refine ⟨?_, ?_⟩
    · rw [tableGet_tableSet_ne _ _ _ _ _ _ (Or.inr (by decide)),
        tableGet_tableSet_same]
      rfl
    · rw [tableGet_tableSet_same]; rfl

/-- Helper: after a successful energy meter loop, every processed
meter has its three energy cells present. -/
theorem processMeters_kwh_sets (ms : List MeterData) :
    ∀ t t', processMeters "kwh" t ms = Except.ok t' →
    ∀ m ∈ ms,
    (tableGet t' m.meter_id "kwh").isSome = true ∧
    (tableGet t' m.meter_id "kwh_today").isSome = true ∧
    (tableGet t' m.meter_id "kwh_total").isSome = true := by
  induction ms with
  | nil => intro t t' hp m hm; cases hm
  | cons m0 ms ih =>
    intro t t' hp m hm
    unfold processMeters at hp
    cases hpm : processMeter "kwh" t m0 with
    | error e => rw [hpm] at hp; cases hp
    | ok t1 =>
      rw [hpm] at hp
      simp only at hp
      cases hm with
      | head =>
        obtain ⟨h1, h2, h3⟩ := processMeter_kwh_sets t m0 t1 hpm
        exact ⟨processMeters_mono "kwh" ms t1 t' hp _ _ h1,
          processMeters_mono "kwh" ms t1 t' hp _ _ h2,
          processMeters_mono "kwh" ms t1 t' hp _ _ h3⟩
      | tail _ hmem => exact ih t1 t' hp m hmem

/-- Helper: after a successful cost meter loop, every processed meter
has its two cost cells present. -/
theorem processMeters_cost_sets (ms : List MeterData) :
    ∀ t t', processMeters "cost" t ms = Except.ok t' →
    ∀ m ∈ ms,
    (tableGet t' m.meter_id "cost").isSome = true ∧
    (tableGet t' m.meter_id "cost_today").isSome = true := by
  induction ms with
  | nil => intro t t' hp m hm; cases hm
  | cons m0 ms ih =>
    intro t t' hp m hm
    unfold processMeters at hp
    cases hpm : processMeter "cost" t m0 with
    | error e => rw [hpm] at hp; cases hp
    | ok t1 =>
      rw [hpm] at hp
      simp only at hp
      cases hm with
      | head =>
        obtain ⟨h1, h2⟩ := processMeter_cost_sets t m0 t1 hpm
        exact ⟨processMeters_mono "cost" ms t1 t' hp _ _ h1,
          processMeters_mono "cost" ms t1 t' hp _ _ h2⟩
      | tail _ hmem => exact ih t1 t' hp m hmem

/-- Helper: the energy meter loop succeeds when every meter entry has
a non-empty readings list whose last reading carries a cumulative
value. -/
theorem processMeters_ok_kwh (ms : List MeterData)
    (h : ∀ m ∈ ms, meterOkKwh m = true) :
    ∀ t, ∃ t', processMeters "kwh" t ms = Except.ok t' := by
  induction ms with
  | nil => intro t; exact ⟨t, rfl⟩
  | cons m ms ih =>
    intro t
    have hm := h m (List.mem_cons_self m ms)
    cases hlast : m.readings.getLast? with
    | none => simp [meterOkKwh, hlast] at hm
    | some last =>
      simp only [meterOkKwh, hlast] at hm
      cases hcv : last.cumulative_value with
      | none => simp [hcv] at hm
      | some c =>
        obtain ⟨t', ht'⟩ := ih (fun m2 hm2 => h m2 (List.mem_cons_of_mem m hm2)) _
        refine ⟨t', ?_⟩
        unfold processMeters
        rw [processMeter_eq_kwh t m last c hlast hcv]
        exact ht'

/-- Helper: a non-energy meter loop succeeds when every meter entry
has a non-empty readings list. -/
theorem processMeters_ok_other (dt : String) (hdt : dt ≠ "kwh") (ms : List MeterData)
    (h : ∀ m ∈ ms, meterOk m = true) :
    ∀ t, ∃ t', processMeters dt t ms = Except.ok t' := by
  induction ms with
  | nil => intro t; exact ⟨t, rfl⟩
  | cons m ms ih =>
    intro t
    have hm := h m (List.mem_cons_self m ms)
    unfold meterOk at hm
    have hne : m.readings ≠ [] := by
      intro hc
      rw [hc] at hm
      cases hm
    obtain ⟨last, hlast⟩ := getLast?_isSome_of_ne_nil m.readings hne
    obtain ⟨t', ht'⟩ := ih (fun m2 hm2 => h m2 (List.mem_cons_of_mem m hm2)) _
    refine ⟨t', ?_⟩
    unfold processMeters
    rw [processMeter_eq_other dt t m last hdt hlast]
    exact ht'

/-- Helper: every completed `postRequest` reports exactly the
login-attempt flag it was given. -/
theorem postRequest_la (st : SEVData) (la : Bool) (o : HttpOutcome) (r : PostResult)
    (h : postRequest st la o = Except.ok r) : r.loginAttempted = la := by
  unfold postRequest at h
  by_cases ht : tokenTruthy st.token = false
  · rw [if_pos ht] at h
    injection h with h
    subst h
    rfl
  · rw [if_neg ht] at h
    cases o with
    | timeout => cases h
    | transportError => cases h
    | noneResponse => injection h with h; subst h; rfl
    | response status body =>
      simp only at h
      by_cases hs : status < 300
      · rw [if_pos hs] at h; injection h with h; subst h; rfl
      · rw [if_neg hs] at h; injection h with h; subst h; rfl

/-- Helper: in a list of readings sorted by timestamp, the last
element carries the maximal timestamp. -/
theorem sorted_getLast_max (rs : List Reading) :
    rs ≠ [] → List.Pairwise (fun a b => a.time_stamp ≤ b.time_stamp) rs →
    ∃ l, rs.getLast? = some l ∧ ∀ r ∈ rs, r.time_stamp ≤ l.time_stamp := by
  induction rs with
  | nil => intro hne _; exact absurd rfl hne
  | cons a rest ih =>
    intro _ hs
    cases rest with
    | nil =>
      refine ⟨a, rfl, ?_⟩
      intro r hr
      rcases List.mem_singleton.mp hr with rfl
      exact le_refl _
    | cons b rest2 =>
      obtain ⟨hab, hs2⟩ := List.pairwise_cons.mp hs
      obtain ⟨l, hl, hmax⟩ := ih (by simp) hs2
      refine ⟨l, ?_, ?_⟩
      · rw [List.getLast?_cons_cons]; exact hl
      · intro r hr
        rcases List.mem_cons.mp hr with rfl | hr2
        · have hlo : l ∈ (b :: rest2).getLast? := by
            rw [hl]; exact Option.mem_some_self l
          rcases List.mem_getLast?_eq_getLast hlo with ⟨hh, heq⟩
          have hlmem : l ∈ b :: rest2 := by rw [heq]; exact List.getLast_mem hh
          exact hab l hlmem
        · exact hmax r hr2

/-- Helper: the decimal digit character of a residue modulo ten. -/
theorem digitChar_mod_isDigit (n : Nat) : (Nat.digitChar (n % 10)).isDigit = true := by
  set k := n % 10 with hk
  have h : k < 10 := Nat.mod_lt _ (by decide)
  interval_cases k <;> decide

/-- Helper: `strftime` output always matches the
`YYYY-MM-DDTHH:MM:SS` shape. -/
theorem isTimestampFormat_formatDateTime (d : PyDateTime) :
    isTimestampFormat (formatDateTime d) = true := by
  unfold isTimestampFormat formatDateTime pad4 pad2
  simp [isDigits, digitChar_mod_isDigit]

/-- Helper: midnight of the same day is chronologically no later. -/
theorem dtKey_startOfDay_le (d : PyDateTime) : dtKey (startOfDay d) ≤ dtKey d := by
  unfold dtKey startOfDay
  simp
  omega

/-- Claim C3: the claim states that every failure mode of `async_post`
(timeout, transport error, non-success status, absent response object)
yields `None` without an exception crossing the client boundary. The
code contradicts this for timeout and transport error: the exception
is caught, but the following `if sev_data:` reads the local that the
failed `session.post` never assigned, so an `UnboundLocalError`
escapes to the caller. Non-success status and absent response do
return `None`. This theorem evaluates the model at those inputs. -/
theorem C3_async_post_timeout_raises :
    async_post stWithToken (HttpOutcome.response 200 "t") HttpOutcome.timeout =
      Except.error "UnboundLocalError" ∧
    async_post stWithToken (HttpOutcome.response 200 "t") HttpOutcome.transportError =
      Except.error "UnboundLocalError" ∧
    async_post stWithToken (HttpOutcome.response 200 "t") (HttpOutcome.response 500 "err") =
      Except.ok ⟨stWithToken, none, false, true⟩ ∧
    async_post stWithToken (HttpOutcome.response 200 "t") HttpOutcome.noneResponse =
      Except.ok ⟨stWithToken, none, false, true⟩ :=
  ⟨rfl, rfl, rfl, rfl⟩

/-- Claim C4: a `call()` invoked with no cached token performs
`authenticate()` first, and when the token is still absent afterwards
it returns `None` immediately without issuing the authenticated
request. -/
theorem C4_no_token_auth_first (st st1 : SEVData) (login po : HttpOutcome)
    (h0 : st.token = none)
    (h1 : async_get_token st login = Except.ok st1)
    (h2 : tokenTruthy st1.token = false) :
    async_post st login po = Except.ok ⟨st1, none, true, false⟩ := by
  unfold async_post
  rw [h0]
  simp only [tokenTruthy, Bool.false_eq_true, if_false]
  rw [h1]
  simp only [postRequest, h2]
  simp

/-- Claim C4 witness: with no token cached and a login rejected with
status 401, the call returns `None`, attempted the login, and issued
no authenticated request. -/
theorem C4_no_token_auth_first_witness :
    stNoToken.token = none ∧
    async_get_token stNoToken (HttpOutcome.response 401 "x") = Except.ok stNoToken ∧
    tokenTruthy stNoToken.token = false ∧
    async_post stNoToken (HttpOutcome.response 401 "x") (HttpOutcome.response 200 "y") =
      Except.ok ⟨stNoToken, none, true, false⟩ :=
  ⟨rfl, rfl, rfl,
    C4_no_token_auth_first stNoToken stNoToken (HttpOutcome.response 401 "x")
      (HttpOutcome.response 200 "y") rfl rfl rfl⟩

/-- Claim C5: `async_get_token` receiving a non-success HTTP status
(300 or above) leaves the cached token exactly as it was — in
particular still absent — and a subsequent `async_post` that
completes has performed authentication again. -/
theorem C5_bad_status_keeps_token_absent (st : SEVData) (status : Nat) (body : String)
    (h0 : st.token = none) (h1 : 300 ≤ status) :
    async_get_token st (HttpOutcome.response status body) = Except.ok st ∧
    ∀ login po r, async_post st login po = Except.ok r → r.loginAttempted = true := by
  constructor
  · simp [async_get_token, Nat.not_lt.mpr h1]
  · intro login po r hr
    unfold async_post at hr
    rw [h0] at hr
    simp only [tokenTruthy, Bool.false_eq_true, if_false] at hr
    cases hg : async_get_token st login with
    | error e => rw [hg] at hr; cases hr
    | ok st1 =>
      rw [hg] at hr
      simp only at hr
      exact postRequest_la st1 true po r hr

/-- Claim C5 witness: a rejected login with status 500 leaves the
token of a fresh client absent, and a completed subsequent call
attempts authentication again. -/
theorem C5_bad_status_keeps_token_absent_witness :
    stNoToken.token = none ∧ (300 : Nat) ≤ 500 ∧
    async_get_token stNoToken (HttpOutcome.response 500 "oops") = Except.ok stNoToken ∧
    ∀ login po r, async_post stNoToken login po = Except.ok r → r.loginAttempted = true :=
  ⟨rfl, by decide,
    (C5_bad_status_keeps_token_absent stNoToken 500 "oops" rfl (by decide)).1,
    (C5_bad_status_keeps_token_absent stNoToken 500 "oops" rfl (by decide)).2⟩

/-- Claim C6: a second `async_update` on the same instance within the
thirty-minute throttle interval issues no network calls and leaves
the whole state, in particular the derived metric table, exactly as
the first invocation left it. The throttle itself is modelled from
the spec, since the `Throttle` decorator lives in `homeassistant.util`
outside this repository. -/
theorem C6_throttled_call_is_noop (st : SEVData) (t0 now : Int)
    (kwh co2 cost : Option (List MeterData))
    (h1 : st.last_update = some t0) (h2 : now - t0 < MIN_TIME_BETWEEN_UPDATES) :
    async_update st now kwh co2 cost = ⟨st, 0, none⟩ := by
  unfold async_update
  rw [h1]
  simp [h2]

/-- Claim C6 witness: a state whose last update happened at minute 0,
refreshed again at minute 10, is returned unchanged with zero network
calls. -/
theorem C6_throttled_call_is_noop_witness :
    (⟨"u", "k", none, some prevTable, some 0⟩ : SEVData).last_update = some 0 ∧
    (10 : Int) - 0 < MIN_TIME_BETWEEN_UPDATES ∧
    async_update ⟨"u", "k", none, some prevTable, some 0⟩ 10 none none none =
      ⟨⟨"u", "k", none, some prevTable, some 0⟩, 0, none⟩ :=
  ⟨rfl, by decide,
    C6_throttled_call_is_noop ⟨"u", "k", none, some prevTable, some 0⟩ 0 10
      none none none rfl (by decide)⟩

/-- Claim C8 counterexample: the claim states that a refresh whose
three endpoint calls all yield nothing leaves the previously stored
table untouched. In the code, `self.data = data` still runs with the
fresh empty `defaultdict`, so a state holding a non-empty table ends
the refresh holding the empty table instead. -/
theorem C8_all_absent_refresh_counterexample :
    async_update ⟨"u", "k", some "tok", some prevTable, none⟩ 100 none none none =
      ⟨⟨"u", "k", some "tok", some ([] : Table), some 100⟩, 3, none⟩ ∧
    (⟨"u", "k", some "tok", some ([] : Table), some 100⟩ : SEVData).data ≠
      (⟨"u", "k", some "tok", some prevTable, none⟩ : SEVData).data := by
  refine ⟨rfl, ?_⟩
  intro hc
  simp [prevTable] at hc

/-- Claim C8 as amended: an unthrottled refresh in which all three
endpoint responses are absent replaces the stored derived metric
table with a fresh empty table (and records the update time); the
prior table is erased, not preserved. -/
theorem C8_all_absent_refresh_empties_table (st : SEVData) (now : Int)
    (h : st.last_update = none) :
    async_update st now none none none =
      ⟨{ st with data := some ([] : Table), last_update := some now }, 3, none⟩ := by
  unfold async_update
  rw [h]
  rfl

/-- Claim C8 amended witness: a fresh instance refreshed at minute 5
with three absent responses ends with the empty table stored. -/
theorem C8_all_absent_refresh_empties_table_witness :
    stNoToken.last_update = none ∧
    async_update stNoToken 5 none none none =
      ⟨⟨"user", "key", none, some ([] : Table), some 5⟩, 3, none⟩ :=
  ⟨rfl, C8_all_absent_refresh_empties_table stNoToken 5 rfl⟩

/-- Claim C10: the refresh fold is not total — a successful endpoint
response containing a meter entry with an empty readings list makes
the unguarded `readings[-1]` raise `IndexError`, the refresh aborts
with the state untouched, and no table entries are written for any
meter or for the later endpoints, whatever their responses are. -/
theorem C10_empty_readings_aborts_refresh (st : SEVData) (now : Int)
    (co2 cost : Option (List MeterData))
    (h : st.last_update = none) :
    async_update st now (some [⟨"7", []⟩]) co2 cost = ⟨st, 3, some "IndexError"⟩ := by
  unfold async_update
  rw [h]
  rfl

/-- Claim C10 witness: a fresh instance refreshed with an
empty-readings meter entry on the energy endpoint and successful
other endpoints aborts with `IndexError` and keeps its state. -/
theorem C10_empty_readings_aborts_refresh_witness :
    stNoToken.last_update = none ∧
    async_update stNoToken 0 (some [⟨"7", []⟩]) (some [sampleCostMeter])
        (some [sampleCostMeter]) = ⟨stNoToken, 3, some "IndexError"⟩ :=
  ⟨rfl, C10_empty_readings_aborts_refresh stNoToken 0 (some [sampleCostMeter])
    (some [sampleCostMeter]) rfl⟩

/-- Claim C1: for a meter `M` whose energy-endpoint response holds the
readings `[{t1,v1},{t2,v2},{t3,v3}]` with last cumulative value `C`,
any successful refresh fold (with arbitrary CO2 and cost responses)
yields a table with `table[M]["kwh"] = {time: t3, value: v3}`,
`table[M]["kwh_today"] = {time: t3, value: v1+v2+v3}` and
`table[M]["kwh_total"] = {time: t3, value: C}`. -/
theorem C1_energy_fold_values (M ts1 ts2 ts3 : String) (v1 v2 v3 : ℚ)
    (cv1 cv2 : Option ℚ) (C : ℚ) (co2 cost : Option (List MeterData)) (T : Table)
    (hfold : foldResponses
      (some [⟨M, [⟨ts1, v1, cv1⟩, ⟨ts2, v2, cv2⟩, ⟨ts3, v3, some C⟩]⟩]) co2 cost =
      Except.ok T) :
    tableGet T M "kwh" = some ⟨ts3, v3⟩ ∧
    tableGet T M "kwh_today" = some ⟨ts3, v1 + v2 + v3⟩ ∧
    tableGet T M "kwh_total" = some ⟨ts3, C⟩ := by
  have hsum : valueSum [⟨ts1, v1, cv1⟩, ⟨ts2, v2, cv2⟩, ⟨ts3, v3, some C⟩] = v1 + v2 + v3 := by
    unfold valueSum
    simp only [List.map_cons, List.map_nil, List.sum_cons, List.sum_nil, add_zero]
    ring
  have hpm : processMeter "kwh" []
      ⟨M, [⟨ts1, v1, cv1⟩, ⟨ts2, v2, cv2⟩, ⟨ts3, v3, some C⟩]⟩ =
      Except.ok (tableSet (tableSet (tableSet [] M "kwh" ⟨ts3, v3⟩)
        M "kwh_today" ⟨ts3, v1 + v2 + v3⟩) M "kwh_total" ⟨ts3, C⟩) := by
    rw [processMeter_eq_kwh []
      ⟨M, [⟨ts1, v1, cv1⟩, ⟨ts2, v2, cv2⟩, ⟨ts3, v3, some C⟩]⟩
      ⟨ts3, v3, some C⟩ C rfl rfl, hsum]
  have h1 : processDataSet "kwh"
      (some [⟨M, [⟨ts1, v1, cv1⟩, ⟨ts2, v2, cv2⟩, ⟨ts3, v3, some C⟩]⟩]) [] =
      Except.ok (tableSet (tableSet (tableSet [] M "kwh" ⟨ts3, v3⟩)
        M "kwh_today" ⟨ts3, v1 + v2 + v3⟩) M "kwh_total" ⟨ts3, C⟩) := by
    unfold processDataSet processMeters
    rw [hpm]
    rfl
  unfold foldResponses at hfold
  rw [h1] at hfold
  simp only at hfold
  cases hc2 : processDataSet "co2" co2
      (tableSet (tableSet (tableSet [] M "kwh" ⟨ts3, v3⟩)
        M "kwh_today" ⟨ts3, v1 + v2 + v3⟩) M "kwh_total" ⟨ts3, C⟩) with
  | error e => rw [hc2] at hfold; cases hfold
  | ok t2 =>
    rw [hc2] at hfold
    simp only at hfold
    have eK1 : tableGet (tableSet (tableSet (tableSet [] M "kwh" ⟨ts3, v3⟩)
        M "kwh_today" ⟨ts3, v1 + v2 + v3⟩) M "kwh_total" ⟨ts3, C⟩) M "kwh" =
        some ⟨ts3, v3⟩ := by
      rw [tableGet_tableSet_ne _ _ _ _ _ _ (Or.inr (by decide)),
        tableGet_tableSet_ne _ _ _ _ _ _ (Or.inr (by decide)),
        tableGet_tableSet_same]
    have eK2 : tableGet (tableSet (tableSet (tableSet [] M "kwh" ⟨ts3, v3⟩)
        M "kwh_today" ⟨ts3, v1 + v2 + v3⟩) M "kwh_total" ⟨ts3, C⟩) M "kwh_today" =
        some ⟨ts3, v1 + v2 + v3⟩ := by
      rw [tableGet_tableSet_ne _ _ _ _ _ _ (Or.inr (by decide)),
        tableGet_tableSet_same]
    have eK3 : tableGet (tableSet (tableSet (tableSet [] M "kwh" ⟨ts3, v3⟩)
        M "kwh_today" ⟨ts3, v1 + v2 + v3⟩) M "kwh_total" ⟨ts3, C⟩) M "kwh_total" =
        some ⟨ts3, C⟩ := tableGet_tableSet_same _ _ _ _
    refine ⟨?_, ?_, ?_⟩
    · rw [processDataSet_preserves "cost" cost t2 T hfold M "kwh"
          (by decide) (by decide) (by decide),
        processDataSet_preserves "co2" co2 _ t2 hc2 M "kwh"
          (by decide) (by decide) (by decide), eK1]
    · rw [processDataSet_preserves "cost" cost t2 T hfold M "kwh_today"
          (by decide) (by decide) (by decide),
        processDataSet_preserves "co2" co2 _ t2 hc2 M "kwh_today"
          (by decide) (by decide) (by decide), eK2]
    · rw [processDataSet_preserves "cost" cost t2 T hfold M "kwh_total"
          (by decide) (by decide) (by decide),
        processDataSet_preserves "co2" co2 _ t2 hc2 M "kwh_total"
          (by decide) (by decide) (by decide), eK3]

/-- Claim C1 witness: the fold of the concrete three-reading energy
response for meter `7` succeeds and carries the claimed three cells. -/
theorem C1_energy_fold_values_witness :
    foldResponses (some [⟨"7", threeReadings⟩]) none none =
      Except.ok threeReadingsTable ∧
    tableGet threeReadingsTable "7" "kwh" = some ⟨"c", 3⟩ ∧
    tableGet threeReadingsTable "7" "kwh_today" = some ⟨"c", 1 + 2 + 3⟩ ∧
    tableGet threeReadingsTable "7" "kwh_total" = some ⟨"c", 100⟩ :=
  ⟨rfl, C1_energy_fold_values "7" "a" "b" "c" 1 2 3 none none 100 none none
    threeReadingsTable rfl⟩

/-- Claim C2: the `_today` aggregation `valueSum` used by the fold
equals the arithmetic sum of the instantaneous `reading` fields and
is invariant under any permutation of the readings list; and when the
readings list is (as assumed) ordered chronologically, the entry the
fold selects as `last` — `readings[-1]`, without re-sorting — is the
chronologically final reading, its timestamp bounding every other. -/
theorem C2_sum_permutation_and_last :
    (∀ (m : MeterData) (rs2 : List Reading), m.readings.Perm rs2 →
      valueSum m.readings = valueSum rs2) ∧
    (∀ (m : MeterData), m.readings ≠ [] →
      List.Pairwise (fun a b => a.time_stamp ≤ b.time_stamp) m.readings →
      ∃ l, m.readings.getLast? = some l ∧
        ∀ r ∈ m.readings, r.time_stamp ≤ l.time_stamp) := by
  constructor
  · intro m rs2 hperm
    exact (hperm.map (fun r => r.reading)).sum_eq
  · intro m hne hs
    exact sorted_getLast_max m.readings hne hs

/-- Claim C2 witness: on the concrete two-reading cost meter the sum
is invariant under the swap of its readings, and the selected last
reading bounds both timestamps. -/
theorem C2_sum_permutation_and_last_witness :
    valueSum sampleCostMeter.readings =
      valueSum [⟨"2025-01-01T02:00:00", 4, none⟩, ⟨"2025-01-01T01:00:00", 3, none⟩] ∧
    ∃ l, sampleCostMeter.readings.getLast? = some l ∧
      ∀ r ∈ sampleCostMeter.readings, r.time_stamp ≤ l.time_stamp :=
  ⟨C2_sum_permutation_and_last.1 sampleCostMeter
      [⟨"2025-01-01T02:00:00", 4, none⟩, ⟨"2025-01-01T01:00:00", 3, none⟩]
      (by exact List.Perm.swap _ _ _),
    C2_sum_permutation_and_last.2 sampleCostMeter (by decide)
      (List.Pairwise.cons
        (fun b hb => by
          rcases List.mem_singleton.mp hb with rfl
          exact String.le_iff_toList_le.mpr (by decide))
        (List.pairwise_singleton _ _))⟩

/-- Claim C7 counterexample: the claim asserts that every refresh in
which the CO2 call returns absent while the kwh and cost calls
succeed completes without raising, with entries for every meter of
the two successful responses. A successful kwh response containing a
meter entry whose readings list is empty is in that domain, and on it
the refresh raises `IndexError` and writes no entry at all: the
claim as frozen is false. -/
theorem C7_co2_failure_counterexample :
    async_update stNoToken 0 (some [⟨"7", []⟩]) none (some [sampleCostMeter]) =
      ⟨stNoToken, 3, some "IndexError"⟩ ∧
    (async_update stNoToken 0 (some [⟨"7", []⟩]) none
      (some [sampleCostMeter])).error ≠ none ∧
    (async_update stNoToken 0 (some [⟨"7", []⟩]) none
      (some [sampleCostMeter])).state.data = none :=
  ⟨rfl, by decide, rfl⟩

/-- Claim C7 as amended: when the CO2 endpoint call returns absent
while the energy and cost calls succeed and every meter entry they
return is foldable (non-empty readings; for energy meters a
`cumulative_value` on the last reading), the refresh completes
without raising, the rebuilt table holds `kwh`, `kwh_today` and
`kwh_total` cells for every meter of the energy response and `cost`
and `cost_today` cells for every meter of the cost response, and
holds no `co2` or `co2_today` cell for any meter. -/
theorem C7_co2_failure_partial_table (st : SEVData) (now : Int)
    (kms cms : List MeterData)
    (hlu : st.last_update = none)
    (hk : ∀ m ∈ kms, meterOkKwh m = true)
    (hc : ∀ m ∈ cms, meterOk m = true) :
    ∃ T, async_update st now (some kms) none (some cms) =
        ⟨{ st with data := some T, last_update := some now }, 3, none⟩ ∧
      (∀ m ∈ kms, (tableGet T m.meter_id "kwh").isSome = true ∧
        (tableGet T m.meter_id "kwh_today").isSome = true ∧
        (tableGet T m.meter_id "kwh_total").isSome = true) ∧
      (∀ m ∈ cms, (tableGet T m.meter_id "cost").isSome = true ∧
        (tableGet T m.meter_id "cost_today").isSome = true) ∧
      (∀ mid, tableGet T mid "co2" = none ∧ tableGet T mid "co2_today" = none) := by
  obtain ⟨t1, ht1⟩ := processMeters_ok_kwh kms hk []
  obtain ⟨T, hT⟩ := processMeters_ok_other "cost" (by decide) cms hc t1
  have hfold : foldResponses (some kms) none (some cms) = Except.ok T := by
    unfold foldResponses
    simp only [processDataSet]
    rw [ht1]
    exact hT
  refine ⟨T, ?_, ?_, ?_, ?_⟩
  · unfold async_update
    rw [hlu]
    show runUpdate st now (some kms) none (some cms) = _
    unfold runUpdate
    rw [hfold]
  · intro m hm
    obtain ⟨h1, h2, h3⟩ := processMeters_kwh_sets kms [] t1 ht1 m hm
    exact ⟨processMeters_mono "cost" cms t1 T hT _ _ h1,
      processMeters_mono "cost" cms t1 T hT _ _ h2,
      processMeters_mono "cost" cms t1 T hT _ _ h3⟩
  · intro m hm
    exact processMeters_cost_sets cms t1 T hT m hm
  · intro mid
    constructor
    · rw [processMeters_preserves "cost" cms t1 T hT mid "co2"
          (by decide) (by decide) (by decide),
        processMeters_preserves "kwh" kms [] t1 ht1 mid "co2"
          (by decide) (by decide) (by decide)]
      rfl
    · rw [processMeters_preserves "cost" cms t1 T hT mid "co2_today"
          (by decide) (by decide) (by decide),
        processMeters_preserves "kwh" kms [] t1 ht1 mid "co2_today"
          (by decide) (by decide) (by decide)]
      rfl

/-- Claim C7 amended witness: a fresh instance refreshed with one energy
meter, an absent CO2 response and one cost meter gets a table with
the energy and cost cells and no CO2 cells. -/
theorem C7_co2_failure_partial_table_witness :
    stNoToken.last_update = none ∧
    (∀ m ∈ [sampleKwhMeter], meterOkKwh m = true) ∧
    (∀ m ∈ [sampleCostMeter], meterOk m = true) ∧
    (∃ T, async_update stNoToken 0 (some [sampleKwhMeter]) none (some [sampleCostMeter]) =
        ⟨{ stNoToken with data := some T, last_update := some 0 }, 3, none⟩ ∧
      (∀ m ∈ [sampleKwhMeter], (tableGet T m.meter_id "kwh").isSome = true ∧
        (tableGet T m.meter_id "kwh_today").isSome = true ∧
        (tableGet T m.meter_id "kwh_total").isSome = true) ∧
      (∀ m ∈ [sampleCostMeter], (tableGet T m.meter_id "cost").isSome = true ∧
        (tableGet T m.meter_id "cost_today").isSome = true) ∧
      (∀ mid, tableGet T mid "co2" = none ∧ tableGet T mid "co2_today" = none)) :=
  ⟨rfl, by decide, by decide,
    C7_co2_failure_partial_table stNoToken 0 [sampleKwhMeter] [sampleCostMeter]
      rfl (by decide) (by decide)⟩

/-- Claim C9 counterexample: the claim asserts that on every refresh
both window timestamps lie in the same local calendar day. The code
reads the clock twice (`datetime.today()` on lines 444 and 445), so a
refresh whose first read falls just before midnight and whose second
read falls just after produces `from_date` and `to_date` on different
calendar days, refuting the same-day invariant at that input. -/
theorem C9_window_counterexample :
    dtLe ⟨2025, 1, 1, 23, 59, 59⟩ ⟨2025, 1, 2, 0, 0, 0⟩ ∧
    dayPart (refreshWindow ⟨2025, 1, 1, 23, 59, 59⟩ ⟨2025, 1, 2, 0, 0, 0⟩).1 ≠
      dayPart (refreshWindow ⟨2025, 1, 1, 23, 59, 59⟩ ⟨2025, 1, 2, 0, 0, 0⟩).2 := by
  decide

/-- Claim C9 as amended: for any refresh whose two successive clock
reads `d1` and `d2` are chronologically ordered, `from_date` is
00:00:00 of the calendar day of the first read, `to_date` is the
second read, both are formatted `YYYY-MM-DDTHH:MM:SS`, `from_date`
is chronologically no later than `to_date`, and whenever the two
clock reads fall in the same local calendar day (every refresh not
straddling midnight) both timestamps lie in that day. -/
theorem C9_window_properties (d1 d2 : PyDateTime) (h : dtLe d1 d2) :
    isTimestampFormat (refreshWindow d1 d2).1 = true ∧
    isTimestampFormat (refreshWindow d1 d2).2 = true ∧
    dtLe (startOfDay d1) d2 ∧
    (sameDay d1 d2 →
      dayPart (refreshWindow d1 d2).1 = dayPart (refreshWindow d1 d2).2) := by
  refine ⟨isTimestampFormat_formatDateTime _, isTimestampFormat_formatDateTime _, ?_, ?_⟩
  · exact le_trans (dtKey_startOfDay_le d1) h
  · intro hsd
    obtain ⟨hy, hm, hd⟩ := hsd
    unfold refreshWindow dayPart formatDateTime startOfDay pad4 pad2
    simp only [hy, hm, hd]
    rfl

/-- Claim C9 amended witness: two ordered morning clock reads on the
same day give a well-formatted, ordered, same-day window. -/
theorem C9_window_properties_witness :
    dtLe ⟨2025, 3, 4, 10, 0, 0⟩ ⟨2025, 3, 4, 12, 30, 0⟩ ∧
    (isTimestampFormat (refreshWindow ⟨2025, 3, 4, 10, 0, 0⟩ ⟨2025, 3, 4, 12, 30, 0⟩).1 = true ∧
     isTimestampFormat (refreshWindow ⟨2025, 3, 4, 10, 0, 0⟩ ⟨2025, 3, 4, 12, 30, 0⟩).2 = true ∧
     dtLe (startOfDay ⟨2025, 3, 4, 10, 0, 0⟩) ⟨2025, 3, 4, 12, 30, 0⟩ ∧
     (sameDay ⟨2025, 3, 4, 10, 0, 0⟩ ⟨2025, 3, 4, 12, 30, 0⟩ →
       dayPart (refreshWindow ⟨2025, 3, 4, 10, 0, 0⟩ ⟨2025, 3, 4, 12, 30, 0⟩).1 =
       dayPart (refreshWindow ⟨2025, 3, 4, 10, 0, 0⟩ ⟨2025, 3, 4, 12, 30, 0⟩).2)) :=
  ⟨by decide, C9_window_properties ⟨2025, 3, 4, 10, 0, 0⟩ ⟨2025, 3, 4, 12, 30, 0⟩ (by decide)⟩
